import Mathlib

/-!
Verification development for the client-side audio capture / resample /
WAV-encode pipeline of the Sanskrit frontend.

The embedded code lives in `src/components/SettingsPanel.tsx`
(`startRecording`, `stopRecording`, `toggleRecording`, the `ondataavailable` and `onstop` handlers of the recorder, `resampleAudio`, `bufferToWav`,
`writeString`) and `src/services/api.ts` (`transcribeAudio`).

Modelling conventions:
* Byte buffers are `List ℕ` with every entry below 256.
* Audio samples are rationals.  Each sample handed to the encoder is a
  Float32 value (24-bit significand); every operation the encoder applies
  to it — clamping, multiplication by 32768 or 32767, and the integer
  conversion performed by `DataView.setInt16` — is exact in the Float64
  arithmetic JavaScript uses for such values, so rational arithmetic is a
  faithful model of the actual computation.
* `DataView.setInt16` converts its argument with ToIntegerOrInfinity,
  which truncates toward zero; `truncJS` models that conversion.
* The `length` argument of the `OfflineAudioContext` constructor is a
  WebIDL `unsigned long`; the platform converts the JavaScript number
  `audioBuffer.duration * targetSampleRate` with the same
  truncation-toward-zero rule, and the Web Audio specification mandates
  that the constructor throw `NotSupportedError` when any of its
  arguments is zero — a throw the surrounding `catch` turns into a
  pipeline abort, modelled as an `Option` result.
* The React state updates performed by the handlers are modelled as pure
  functions on an explicit `PanelState` record.
-/

/-- Little-endian bytes of `DataView.setUint16(offset, v, true)`:
JavaScript stores `v mod 2^16` as two bytes, low byte first. -/
def u16le (v : ℕ) : List ℕ := [v % 256, v / 256 % 256]

/-- Little-endian bytes of `DataView.setUint32(offset, v, true)`:
JavaScript stores `v mod 2^32` as four bytes, low byte first. -/
def u32le (v : ℕ) : List ℕ :=
  [v % 256, v / 256 % 256, v / 256 / 256 % 256, v / 256 / 256 / 256 % 256]

/-- Little-endian bytes of `DataView.setInt16(offset, v, true)` for an
integer argument: the stored bit pattern is the twos-complement
residue `v mod 2^16`, low byte first. -/
def i16le (v : ℤ) : List ℕ := u16le (v % 65536).toNat

/-- `writeString(dataView, offset, s)` writes the code units of `s` as
consecutive bytes (`SettingsPanel.tsx` lines 576-580). -/
def writeString (s : String) : List ℕ := s.data.map Char.toNat

/-- The Web Audio `AudioBuffer` interface as `bufferToWav` consumes it:
`numberOfChannels`, `length` (sample frames per channel), `sampleRate`,
and `getChannelData(j)[i]` modelled as the total function
`channelData j i`. -/
structure AudioBuffer where
  numberOfChannels : ℕ
  length : ℕ
  sampleRate : ℕ
  channelData : ℕ → ℕ → ℚ

/-- The JavaScript ToIntegerOrInfinity operation on a finite number: truncation
toward zero.  This is the conversion `DataView.setInt16` and the WebIDL
`unsigned long` argument conversion apply. -/
def truncJS (q : ℚ) : ℤ := if q < 0 then -⌊-q⌋ else ⌊q⌋

/-- One sample as encoded by `bufferToWav` (`SettingsPanel.tsx` lines
566-567): clamp to `[-1, 1]` via `Math.max(-1, Math.min(1, s))`, scale
by `0x8000` when negative and `0x7FFF` otherwise, and let
`setInt16` truncate the product toward zero. -/
def quantize (s : ℚ) : ℤ :=
  let c := max (-1) (min 1 s)
  if c < 0 then truncJS (c * 32768) else truncJS (c * 32767)

/-- The quantizer as §4.3 of the specification words it: clamp, then
`int16 = round(sample × 32768)` for negative samples and
`round(sample × 32767)` otherwise.  Kept separate from `quantize`
(the behaviour of the code) so the two can be compared. -/
def specQuantize (s : ℚ) : ℤ :=
  let c := max (-1) (min 1 s)
  if c < 0 then round (c * 32768) else round (c * 32767)

/-- The bytes the inner loop of `bufferToWav` writes for sample frame
`i`: channels `j = 0 … numberOfChannels-1` in order, two bytes each. -/
def frameBytes (b : AudioBuffer) (i : ℕ) : List ℕ :=
  ((List.range b.numberOfChannels).map
    (fun j => i16le (quantize (b.channelData j i)))).flatten

/-- The data section of `bufferToWav`: frames `i = 0 … length-1` in
order (sample-major, channel-minor). -/
def dataBytes (b : AudioBuffer) : List ℕ :=
  ((List.range b.length).map (fun i => frameBytes b i)).flatten

/-- The 44-byte header written by `bufferToWav`
(`SettingsPanel.tsx` lines 543-555), with
`length = buffer.length * numOfChannels * 2`. -/
def wavHeader (b : AudioBuffer) : List ℕ :=
  writeString "RIFF" ++
  u32le (36 + b.length * b.numberOfChannels * 2) ++
  writeString "WAVE" ++
  writeString "fmt " ++
  u32le 16 ++
  u16le 1 ++
  u16le b.numberOfChannels ++
  u32le b.sampleRate ++
  u32le (b.sampleRate * b.numberOfChannels * 2) ++
  u16le (b.numberOfChannels * 2) ++
  u16le 16 ++
  writeString "data" ++
  u32le (b.length * b.numberOfChannels * 2)

/-- `bufferToWav` (`SettingsPanel.tsx` lines 536-573): header followed
by the interleaved 16-bit data section. -/
def bufferToWav (b : AudioBuffer) : List ℕ := wavHeader b ++ dataBytes b

/-- The decoded audio as `resampleAudio` reads it off the
`decodeAudioData` result: channel count, `duration` in seconds, and the
source sample rate. -/
structure DecodedAudio where
  numberOfChannels : ℕ
  duration : ℚ
  sampleRate : ℕ

/-- The offline-render stage of `resampleAudio` (`SettingsPanel.tsx`
lines 503-516): the code constructs
`OfflineAudioContext(numberOfChannels, duration * targetSampleRate, targetSampleRate)`
and renders into it.  The `length` argument is converted by WebIDL
truncation toward zero, and the Web Audio specification mandates that
the constructor throw `NotSupportedError` when any of its arguments is
zero; that throw lands in the surrounding `catch` and aborts the
pipeline, modelled as `none`.  On success the rendered buffer has the
channel count of the source, the target sample rate, and the truncated
length.  The rendered sample values come from the platform resampler,
which the Web Audio specification leaves implementation-defined; they
are abstracted as the argument `render`. -/
def resampleAudio (d : DecodedAudio) (targetSampleRate : ℕ)
    (render : ℕ → ℕ → ℚ) : Option AudioBuffer :=
  if d.numberOfChannels = 0 ∨
      (truncJS (d.duration * targetSampleRate)).toNat = 0 ∨
      targetSampleRate = 0 then
    none
  else
    some { numberOfChannels := d.numberOfChannels
           length := (truncJS (d.duration * targetSampleRate)).toNat
           sampleRate := targetSampleRate
           channelData := render }

/-- `MediaRecorder.state` values. -/
inductive RecorderState
  | inactive
  | recording
  | paused
deriving DecidableEq

/-- `VoiceRecordingState` from `types.ts`. -/
structure VoiceState where
  isRecording : Bool
  error : Option String
deriving DecidableEq

/-- The component state the recording handlers read and write:
`voiceState`, `isTranscribing`, the compose field `inputText`,
`mediaRecorderRef.current` (with its `state`), `audioChunksRef.current`
(chunk sizes), and whether the tracks of the captured stream have been
stopped. -/
structure PanelState where
  voiceState : VoiceState
  isTranscribing : Bool
  inputText : String
  recorder : Option RecorderState
  chunks : List ℕ
  streamReleased : Bool
deriving DecidableEq

/-- The `ondataavailable` handler of the recorder (`SettingsPanel.tsx` lines
428-432): append the chunk only when `event.data.size > 0`. -/
def ondataavailable (s : PanelState) (size : ℕ) : PanelState :=
  if size > 0 then { s with chunks := s.chunks ++ [size] } else s

/-- `startRecording` (`SettingsPanel.tsx` lines 415-472), summarised to
its net state effect.  When the microphone grant succeeds, the function
sets `voiceState` to recording, installs a fresh recorder (started, so
its state is `recording`), resets the chunk array to `[]`, and holds a
live (unreleased) stream.  When `getUserMedia` rejects, the `catch`
block leaves `voiceState` as not-recording with an error; the recorder
ref and chunk array are untouched.  Note the function performs no check
of `isRecording` before doing any of this. -/
def startRecording (s : PanelState) (granted : Bool) : PanelState :=
  if granted then
    { s with voiceState := ⟨true, none⟩
             recorder := some .recording
             chunks := []
             streamReleased := false }
  else
    { s with voiceState := ⟨false, some "Error starting recording"⟩ }

/-- `stopRecording` (`SettingsPanel.tsx` lines 474-478): call
`mediaRecorder.stop()` only when a recorder exists and its state is not
`inactive`.  The boolean result records whether `stop()` was invoked;
invoking it moves the recorder to `inactive` (the platform then fires
`onstop`). -/
def stopRecording (s : PanelState) : PanelState × Bool :=
  match s.recorder with
  | none => (s, false)
  | some st =>
    if st = .inactive then (s, false)
    else ({ s with recorder := some .inactive }, true)

/-- `toggleRecording` (`SettingsPanel.tsx` lines 582-588): stop when
`voiceState.isRecording`, otherwise start. -/
def toggleRecording (s : PanelState) (granted : Bool) : PanelState :=
  if s.voiceState.isRecording then (stopRecording s).1
  else startRecording s granted

/-- Outcome of the processing the `onstop` handler awaits: either the
transcript string, or a throw from decode/resample/encode, or a throw
from the transcription call. -/
inductive StopOutcome
  | success (transcript : String)
  | processingFailure
  | transcribeFailure

/-- The `onstop` handler of the recorder (`SettingsPanel.tsx` lines
434-460): clear the recording flag, set `isTranscribing`; inside
`try`, resample and transcribe, and on success put the transcript in
the compose field; on any throw, set the error state and leave the
compose field alone; in `finally`, clear `isTranscribing`; after the
`try`/`catch`/`finally`, stop every track of the captured stream. -/
def onstopHandler (s : PanelState) (o : StopOutcome) : PanelState :=
  let s1 := { s with voiceState := ⟨false, none⟩, isTranscribing := true }
  let s2 := match o with
    | .success t => { s1 with inputText := t }
    | _ => { s1 with voiceState := ⟨false, some "Error processing audio"⟩ }
  let s3 := { s2 with isTranscribing := false }
  { s3 with streamReleased := true }

/-- An HTTP request as `transcribeAudio` issues it: path, method, the
multipart form field name and filename, and the uploaded bytes. -/
structure HttpRequest where
  path : String
  method : String
  formFieldName : String
  filename : String
  body : List ℕ
deriving DecidableEq

/-- The response as `transcribeAudio` consumes it: the status code and
the `transcript` string field of the JSON body. -/
structure HttpResponse where
  status : ℕ
  transcript : String
deriving DecidableEq

/-- The single request `transcribeAudio` (`api.ts` lines 32-55) builds:
`POST /transcribe` with `formData.append` with field `audio` and filename `recording.wav`. -/
def transcribeRequest (audioBlob : List ℕ) : HttpRequest :=
  ⟨"/transcribe", "POST", "audio", "recording.wav", audioBlob⟩

/-- `Response.ok` of the Fetch API: status in the range 200-299. -/
def responseOk (status : ℕ) : Bool := 200 ≤ status && status < 300

/-- `transcribeAudio` (`api.ts` lines 32-55): issue exactly one request
(the returned list of issued requests is a singleton — the function
contains no retry); throw `Failed to transcribe audio` when
`response.ok` is false, otherwise return `data.transcript`. -/
def transcribeAudio (audioBlob : List ℕ) (resp : HttpResponse) :
    List HttpRequest × Except String String :=
  ([transcribeRequest audioBlob],
   if responseOk resp.status then Except.ok resp.transcript
   else Except.error "Failed to transcribe audio")

/-- A one-channel, one-frame buffer at 16000 Hz holding the sample `q`,
used as concrete input. -/
def monoBuf (q : ℚ) : AudioBuffer :=
  { numberOfChannels := 1, length := 1, sampleRate := 16000
    channelData := fun _ _ => q }

/-- A two-channel, two-frame buffer used as concrete input: channel `j`,
frame `i` holds the sample `(1 + i + 2*j) / 4`. -/
def stereoBuf : AudioBuffer :=
  { numberOfChannels := 2, length := 2, sampleRate := 16000
    channelData := fun j i => (1 + i + 2 * j : ℚ) / 4 }

/-- Decoded audio lasting one and a half output frames at 16000 Hz. -/
def decodedThreeHalfFrames : DecodedAudio :=
  { numberOfChannels := 1, duration := 3 / 32000, sampleRate := 44100 }

/-- Decoded audio lasting exactly one second. -/
def decodedOneSecond : DecodedAudio :=
  { numberOfChannels := 1, duration := 1, sampleRate := 44100 }

/-- A concrete state in the middle of a recording session: recording,
one chunk of 5 bytes captured, stream live. -/
def recordingState : PanelState :=
  { voiceState := ⟨true, none⟩, isTranscribing := false
    inputText := "draft", recorder := some .recording
    chunks := [5], streamReleased := false }

/-- A concrete idle state: no recorder has ever been created. -/
def idleState : PanelState :=
  { voiceState := ⟨false, none⟩, isTranscribing := false
    inputText := "", recorder := none
    chunks := [], streamReleased := true }

/-- A concrete state after a recorder finished: recorder exists but is
`inactive`. -/
def finishedState : PanelState :=
  { voiceState := ⟨false, none⟩, isTranscribing := false
    inputText := "hello", recorder := some .inactive
    chunks := [3, 4], streamReleased := true }
theorem wavHeader_length (b : AudioBuffer) : (wavHeader b).length = 44 := rfl

theorem i16le_length (v : ℤ) : (i16le v).length = 2 := rfl

theorem bufferToWav_drop_header (b : AudioBuffer) :
    (bufferToWav b).drop 44 = dataBytes b := by
  have h : (wavHeader b).length = 44 := rfl
  rw [bufferToWav, ← h, List.drop_left]

theorem length_flatten_range (f : ℕ → List ℕ) (L : ℕ)
    (h : ∀ i, (f i).length = L) (n : ℕ) :
    (((List.range n).map f).flatten).length = n * L := by
  induction n with
  | zero => simp
  | succ k ih =>
    rw [List.range_succ]
    simp [ih, h, Nat.succ_mul]

theorem frameBytes_length (b : AudioBuffer) (i : ℕ) :
    (frameBytes b i).length = b.numberOfChannels * 2 := by
  rw [frameBytes]
  exact length_flatten_range (fun j => i16le (quantize (b.channelData j i))) 2
    (fun j => i16le_length _) b.numberOfChannels

theorem dataBytes_length (b : AudioBuffer) :
    (dataBytes b).length = b.length * b.numberOfChannels * 2 := by
  rw [dataBytes, length_flatten_range (fun i => frameBytes b i)
    (b.numberOfChannels * 2) (fun i => frameBytes_length b i) b.length]
  ring

theorem drop_flatten_range (f : ℕ → List ℕ) (L : ℕ)
    (h : ∀ i, (f i).length = L) :
    ∀ (k n : ℕ), k ≤ n →
      (((List.range n).map f).flatten).drop (k * L) =
        ((List.range (n - k)).map (fun t => f (k + t))).flatten := by
  intro k
  induction k with
  | zero => intro n _; simp
  | succ k ih =>
    intro n hk
    obtain ⟨m, rfl⟩ : ∃ m, n = m + 1 := ⟨n - 1, by omega⟩
    have hkm : k ≤ m + 1 := by omega
    have step : (((List.range (m + 1)).map f).flatten).drop (L + k * L) =
        ((((List.range (m + 1)).map f).flatten).drop (k * L)).drop L := by
      rw [List.drop_drop, Nat.add_comm]
    rw [Nat.succ_mul, Nat.add_comm (k * L) L, step, ih (m + 1) hkm]
    obtain ⟨p, hp⟩ : ∃ p, m + 1 - k = p + 1 := ⟨m - k, by omega⟩
    rw [hp, List.range_succ_eq_map]
    have hh : (f (k + 0)).length = L := h _
    rw [List.map_cons, List.flatten_cons, ← hh, List.drop_left, List.map_map]
    have hq : m + 1 - (k + 1) = p := by omega
    rw [hq]
    congr 1
    apply List.map_congr_left
    intro t _
    simp [Function.comp, Nat.succ_eq_add_one]
    ring_nf
set_option maxHeartbeats 1600000 in
/-- Claim C1: for every `AudioBuffer` input, `bufferToWav` produces
`44 + N*C*2` bytes whose 44-byte header is laid out little-endian as:
"RIFF", `36 + dataLength` (u32), "WAVE", "fmt ", 16 (u32), 1 (u16),
channel count (u16), sample rate (u32), byte rate `R*C*2` (u32), block
align `C*2` (u16), 16 bits per sample (u16), "data", `dataLength` (u32),
with `dataLength = N*C*2`. -/
theorem bufferToWav_header_layout (b : AudioBuffer) :
    (bufferToWav b).length = 44 + b.length * b.numberOfChannels * 2 ∧
    (bufferToWav b).take 4 = writeString "RIFF" ∧
    ((bufferToWav b).drop 4).take 4 =
      u32le (36 + b.length * b.numberOfChannels * 2) ∧
    ((bufferToWav b).drop 8).take 4 = writeString "WAVE" ∧
    ((bufferToWav b).drop 12).take 4 = writeString "fmt " ∧
    ((bufferToWav b).drop 16).take 4 = u32le 16 ∧
    ((bufferToWav b).drop 20).take 2 = u16le 1 ∧
    ((bufferToWav b).drop 22).take 2 = u16le b.numberOfChannels ∧
    ((bufferToWav b).drop 24).take 4 = u32le b.sampleRate ∧
    ((bufferToWav b).drop 28).take 4 =
      u32le (b.sampleRate * b.numberOfChannels * 2) ∧
    ((bufferToWav b).drop 32).take 2 = u16le (b.numberOfChannels * 2) ∧
    ((bufferToWav b).drop 34).take 2 = u16le 16 ∧
    ((bufferToWav b).drop 36).take 4 = writeString "data" ∧
    ((bufferToWav b).drop 40).take 4 =
      u32le (b.length * b.numberOfChannels * 2) := by
  refine ⟨?_, rfl, rfl, rfl, rfl, rfl, rfl, rfl, rfl, rfl, rfl, rfl, rfl, rfl⟩
  rw [bufferToWav, List.length_append, wavHeader_length, dataBytes_length]

theorem quantize_eval_half : quantize (1 / 2) = 16383 := by
  rw [quantize]
  rw [min_eq_right (by norm_num : (1 / 2 : ℚ) ≤ 1),
    max_eq_right (by norm_num : (-1 : ℚ) ≤ 1 / 2),
    if_neg (by norm_num : ¬((1 / 2 : ℚ) < 0)), truncJS,
    if_neg (by norm_num : ¬((1 / 2 : ℚ) * 32767 < 0))]
  norm_num

theorem specQuantize_eval_half : specQuantize (1 / 2) = 16384 := by
  rw [specQuantize]
  rw [min_eq_right (by norm_num : (1 / 2 : ℚ) ≤ 1),
    max_eq_right (by norm_num : (-1 : ℚ) ≤ 1 / 2),
    if_neg (by norm_num : ¬((1 / 2 : ℚ) < 0))]
  norm_num [round_eq]

/-- Counterexample to claim C2 as stated: at the one-channel buffer
holding the single sample `1/2`, the two data bytes the encoder writes
at offset 44 are those of `16383` (truncation of `16383.5`), not those
of `round(0.5 × 32767) = 16384` that the formula of the claim demands. -/
theorem bufferToWav_round_counterexample :
    ((bufferToWav (monoBuf (1 / 2))).drop 44).take 2 ≠
      i16le (specQuantize (1 / 2)) := by
  have hd : dataBytes (monoBuf (1 / 2)) = i16le (quantize (1 / 2)) := by
    simp [dataBytes, frameBytes, monoBuf]
  rw [bufferToWav_drop_header, hd, quantize_eval_half, specQuantize_eval_half]
  decide

/-- Claim C2 (amended): for sample index `i < N` and channel `j < C`,
the two bytes at offset `44 + (i*C + j)*2` — channel-minor,
sample-major interleaving — are the little-endian signed 16-bit
encoding of the sample `channels[j][i]` clamped to `[-1,1]`, scaled by
32768 when negative and 32767 otherwise, and truncated toward zero
(the conversion `DataView.setInt16` applies), not rounded to nearest. -/
theorem bufferToWav_sample_bytes (b : AudioBuffer) (i j : ℕ)
    (hi : i < b.length) (hj : j < b.numberOfChannels) :
    ((bufferToWav b).drop (44 + (i * b.numberOfChannels + j) * 2)).take 2 =
      i16le (quantize (b.channelData j i)) := by
  rw [← List.drop_drop ((i * b.numberOfChannels + j) * 2) 44,
    bufferToWav_drop_header,
    show (i * b.numberOfChannels + j) * 2 =
      i * (b.numberOfChannels * 2) + j * 2 from by ring,
    ← List.drop_drop (j * 2) (i * (b.numberOfChannels * 2)),
    dataBytes,
    drop_flatten_range (fun t => frameBytes b t) (b.numberOfChannels * 2)
      (fun t => frameBytes_length b t) i b.length (le_of_lt hi)]
  obtain ⟨p, hp⟩ : ∃ p, b.length - i = p + 1 := ⟨b.length - i - 1, by omega⟩
  rw [hp, List.range_succ_eq_map, List.map_cons, List.flatten_cons,
    List.drop_append_of_le_length
      (by rw [frameBytes_length]; exact Nat.mul_le_mul_right 2 (le_of_lt hj)),
    frameBytes,
    drop_flatten_range
      (fun t => i16le (quantize (b.channelData t (i + 0)))) 2
      (fun t => i16le_length _) j b.numberOfChannels (le_of_lt hj)]
  obtain ⟨q, hq⟩ : ∃ q, b.numberOfChannels - j = q + 1 :=
    ⟨b.numberOfChannels - j - 1, by omega⟩
  rw [hq, List.range_succ_eq_map, List.map_cons, List.flatten_cons,
    List.append_assoc,
    show (2 : ℕ) = (i16le (quantize (b.channelData (j + 0) (i + 0)))).length
      from rfl,
    List.take_left]
  simp

/-- Witness for `bufferToWav_sample_bytes` at the concrete two-channel,
two-frame buffer `stereoBuf`, sample index 0, channel index 1. -/
theorem bufferToWav_sample_bytes_witness :
    (0 < stereoBuf.length ∧ 1 < stereoBuf.numberOfChannels) ∧
    ((bufferToWav stereoBuf).drop
      (44 + (0 * stereoBuf.numberOfChannels + 1) * 2)).take 2 =
      i16le (quantize (stereoBuf.channelData 1 0)) :=
  ⟨⟨by decide, by decide⟩,
    bufferToWav_sample_bytes stereoBuf 0 1 (by decide) (by decide)⟩
theorem truncJS_nonneg (q : ℚ) (h : 0 ≤ q) : truncJS q = ⌊q⌋ := by
  rw [truncJS, if_neg (not_lt.mpr h)]

theorem quantize_ge_one (s : ℚ) (h : 1 ≤ s) : quantize s = 32767 := by
  rw [quantize, min_eq_left h, max_eq_right (by norm_num : (-1 : ℚ) ≤ 1),
    if_neg (by norm_num : ¬((1 : ℚ) < 0)), truncJS,
    if_neg (by norm_num : ¬((1 : ℚ) * 32767 < 0))]
  norm_num

theorem quantize_le_neg_one (s : ℚ) (h : s ≤ -1) : quantize s = -32768 := by
  rw [quantize, min_eq_right (by linarith : s ≤ 1), max_eq_left h,
    if_pos (by norm_num : (-1 : ℚ) < 0), truncJS,
    if_pos (by norm_num : (-1 : ℚ) * 32768 < 0)]
  norm_num

theorem quantize_zero : quantize 0 = 0 := by
  rw [quantize, min_eq_right (by norm_num : (0 : ℚ) ≤ 1),
    max_eq_right (by norm_num : (-1 : ℚ) ≤ 0),
    if_neg (by norm_num : ¬((0 : ℚ) < 0)), truncJS,
    if_neg (by norm_num : ¬((0 : ℚ) * 32767 < 0))]
  norm_num

theorem dataBytes_monoBuf (q : ℚ) : dataBytes (monoBuf q) = i16le (quantize q) := by
  simp [dataBytes, frameBytes, monoBuf]

/-- Claim C4: the encoder clamps every sample to `[-1, 1]` before
quantization — a sample of `1.5` produces the same output container as
`1.0` and its data bytes encode `32767`; a sample of `-2.0` produces
the same container as `-1.0` and its data bytes encode `-32768`; a
sample of `0.0` encodes to `0`. -/
theorem bufferToWav_clamping :
    bufferToWav (monoBuf (3 / 2)) = bufferToWav (monoBuf 1) ∧
    ((bufferToWav (monoBuf 1)).drop 44).take 2 = i16le 32767 ∧
    bufferToWav (monoBuf (-2)) = bufferToWav (monoBuf (-1)) ∧
    ((bufferToWav (monoBuf (-1))).drop 44).take 2 = i16le (-32768) ∧
    ((bufferToWav (monoBuf 0)).drop 44).take 2 = i16le 0 := by
  refine ⟨?_, ?_, ?_, ?_, ?_⟩
  · rw [bufferToWav, bufferToWav, dataBytes_monoBuf, dataBytes_monoBuf,
      quantize_ge_one (3 / 2) (by norm_num), quantize_ge_one 1 (by norm_num)]
    rfl
  · rw [bufferToWav_drop_header, dataBytes_monoBuf,
      quantize_ge_one 1 (by norm_num)]
    rfl
  · rw [bufferToWav, bufferToWav, dataBytes_monoBuf, dataBytes_monoBuf,
      quantize_le_neg_one (-2) (by norm_num),
      quantize_le_neg_one (-1) (by norm_num)]
    rfl
  · rw [bufferToWav_drop_header, dataBytes_monoBuf,
      quantize_le_neg_one (-1) (by norm_num)]
    rfl
  · rw [bufferToWav_drop_header, dataBytes_monoBuf, quantize_zero]
    rfl

/-- Counterexample to claim C3 as stated: for decoded audio lasting
`3/32000` of a second the length argument is `1.5`, the constructor
succeeds (converted length `1`, a valid nonzero value), and the code
renders a buffer of `trunc(1.5) = 1` frame — not the `ceil(1.5) = 2`
frames the claim requires. -/
theorem resampleAudio_ceil_counterexample :
    (resampleAudio decodedThreeHalfFrames 16000 (fun _ _ => 0)).map
      AudioBuffer.length = some 1 ∧
    (⌈decodedThreeHalfFrames.duration * (16000 : ℚ)⌉).toNat = 2 := by
  have hT : truncJS (decodedThreeHalfFrames.duration * ((16000 : ℕ) : ℚ)) = 1 := by
    rw [show decodedThreeHalfFrames.duration * ((16000 : ℕ) : ℚ) = 3 / 2 from by
      norm_num [decodedThreeHalfFrames]]
    rw [truncJS_nonneg _ (by norm_num)]
    norm_num
  constructor
  · rw [resampleAudio, if_neg]
    · show some ((truncJS
        (decodedThreeHalfFrames.duration * ((16000 : ℕ) : ℚ))).toNat) = some 1
      rw [hT]
      rfl
    · push_neg
      refine ⟨by norm_num [decodedThreeHalfFrames], ?_, by norm_num⟩
      rw [hT]
      decide
  · rw [show decodedThreeHalfFrames.duration * (16000 : ℚ) = 3 / 2 from by
      norm_num [decodedThreeHalfFrames]]
    rw [show ⌈(3 / 2 : ℚ)⌉ = 2 from by
      rw [Int.ceil_eq_iff]
      constructor <;> norm_num]
    rfl

/-- Claim C3 (amended): the code passes
`audioBuffer.duration * targetSampleRate` as the offline-context length
with the target rate 16000 Hz (the value at the only call site,
`resampleAudio(audioBlob, 16000)`), and WebIDL truncates that argument
toward zero.  When the truncated length is nonzero and the source has
at least one channel, the render succeeds and the rendered buffer has
length equal to the truncation — not the ceiling — of
`sourceDurationSeconds * 16000`, channel count equal to that of the
source, and sample rate 16000; when the truncated length is zero, the
constructor throws `NotSupportedError` and the pipeline aborts without
rendering. -/
theorem resampleAudio_contract (d : DecodedAudio) (render : ℕ → ℕ → ℚ)
    (h0 : 0 ≤ d.duration) (hch : d.numberOfChannels ≠ 0) :
    ((⌊d.duration * (16000 : ℚ)⌋).toNat ≠ 0 →
      resampleAudio d 16000 render = some
        { numberOfChannels := d.numberOfChannels
          length := (⌊d.duration * (16000 : ℚ)⌋).toNat
          sampleRate := 16000
          channelData := render }) ∧
    ((⌊d.duration * (16000 : ℚ)⌋).toNat = 0 →
      resampleAudio d 16000 render = none) := by
  have hT : truncJS (d.duration * ((16000 : ℕ) : ℚ)) =
      ⌊d.duration * (16000 : ℚ)⌋ := by
    rw [show ((16000 : ℕ) : ℚ) = (16000 : ℚ) from by norm_num,
      truncJS_nonneg _ (mul_nonneg h0 (by norm_num))]
  constructor
  · intro hlen
    rw [resampleAudio, if_neg]
    · rw [hT]
    · push_neg
      exact ⟨hch, by rw [hT]; exact hlen, by norm_num⟩
  · intro hlen
    rw [resampleAudio, if_pos]
    exact Or.inr (Or.inl (by rw [hT]; exact hlen))

/-- Witness for `resampleAudio_contract` at one second of decoded
audio: the render succeeds with `⌊1 * 16000⌋ = 16000` frames. -/
theorem resampleAudio_contract_witness :
    (0 ≤ decodedOneSecond.duration ∧ decodedOneSecond.numberOfChannels ≠ 0 ∧
      (⌊decodedOneSecond.duration * (16000 : ℚ)⌋).toNat ≠ 0) ∧
    resampleAudio decodedOneSecond 16000 (fun _ _ => 0) = some
      { numberOfChannels := decodedOneSecond.numberOfChannels
        length := (⌊decodedOneSecond.duration * (16000 : ℚ)⌋).toNat
        sampleRate := 16000
        channelData := fun _ _ => 0 } :=
  ⟨⟨by norm_num [decodedOneSecond], by norm_num [decodedOneSecond],
      by norm_num [decodedOneSecond]⟩,
    (resampleAudio_contract decodedOneSecond (fun _ _ => 0)
      (by norm_num [decodedOneSecond]) (by norm_num [decodedOneSecond])).1
      (by norm_num [decodedOneSecond])⟩
theorem stopRecording_fst_chunks (s : PanelState) :
    (stopRecording s).1.chunks = s.chunks := by
  cases hr : s.recorder with
  | none => simp [stopRecording, hr]
  | some st =>
    by_cases h : st = RecorderState.inactive
    · simp [stopRecording, hr, h]
    · simp [stopRecording, hr, h]

/-- Counterexample to claim C5 as stated: from the concrete state
`recordingState` (recording in progress, one captured chunk), invoking
`startRecording` with the microphone grant succeeding is not a no-op —
it replaces the chunk sequence with a fresh empty one, so the existing
sequence does not continue unaffected.  `startRecording` itself
contains no `isRecording` check. -/
theorem startRecording_while_recording_counterexample :
    startRecording recordingState true ≠ recordingState ∧
    (startRecording recordingState true).chunks ≠ recordingState.chunks := by
  constructor <;> decide

/-- Claim C5 (amended): mutual exclusion lives in `toggleRecording`,
not in `startRecording`.  While `isRecording` is true, the toggle entry
point invokes `stopRecording` — never `startRecording` — so it creates
no second chunk sequence and leaves the existing one unchanged;
`startRecording` itself is unguarded and, if invoked directly while
recording with the grant succeeding, resets the chunk sequence to
empty. -/
theorem toggleRecording_mutual_exclusion (s : PanelState) (g : Bool)
    (h : s.voiceState.isRecording = true) :
    toggleRecording s g = (stopRecording s).1 ∧
    (toggleRecording s g).chunks = s.chunks ∧
    (startRecording s true).chunks = [] := by
  refine ⟨by rw [toggleRecording, if_pos h], ?_, by rw [startRecording, if_pos rfl]⟩
  rw [toggleRecording, if_pos h, stopRecording_fst_chunks]

/-- Witness for `toggleRecording_mutual_exclusion` at the concrete
state `recordingState`. -/
theorem toggleRecording_mutual_exclusion_witness :
    recordingState.voiceState.isRecording = true ∧
    (toggleRecording recordingState true = (stopRecording recordingState).1 ∧
    (toggleRecording recordingState true).chunks = recordingState.chunks ∧
    (startRecording recordingState true).chunks = []) :=
  ⟨by decide, toggleRecording_mutual_exclusion recordingState true (by decide)⟩

/-- Claim C6: after the `onstop` handler runs, every track of the
captured stream has been stopped, whatever the outcome — success,
decode/resample failure, or transcription failure.  The
`stream.getTracks().forEach(track => track.stop())` line sits after the
`try`/`catch`/`finally`, and the `catch` swallows every throw, so it
always executes. -/
theorem onstop_releases_stream (s : PanelState) (o : StopOutcome) :
    (onstopHandler s o).streamReleased = true := by
  cases o <;> rfl

/-- Claim C7: no partial-result semantics — on success the full
transcript is placed in the compose field; on either failure the
compose field keeps its previous text and the error state
`Error processing audio` is surfaced. -/
theorem onstop_no_partial_result (s : PanelState) (t : String) :
    (onstopHandler s (StopOutcome.success t)).inputText = t ∧
    (onstopHandler s StopOutcome.processingFailure).inputText = s.inputText ∧
    (onstopHandler s StopOutcome.processingFailure).voiceState.error =
      some "Error processing audio" ∧
    (onstopHandler s StopOutcome.transcribeFailure).inputText = s.inputText ∧
    (onstopHandler s StopOutcome.transcribeFailure).voiceState.error =
      some "Error processing audio" :=
  ⟨rfl, rfl, rfl, rfl, rfl⟩

/-- Claim C8: `transcribeAudio` issues exactly one request — `POST` to
`/transcribe`, multipart form field `audio`, filename `recording.wav`,
body the encoded bytes — returns the `transcript` field of the JSON
response when the status is 2xx, and throws on every non-2xx status;
the singleton request list witnesses that no retry is ever issued. -/
theorem transcribeAudio_contract (blob : List ℕ) (resp : HttpResponse) :
    (transcribeAudio blob resp).1 = [transcribeRequest blob] ∧
    (transcribeRequest blob).path = "/transcribe" ∧
    (transcribeRequest blob).method = "POST" ∧
    (transcribeRequest blob).formFieldName = "audio" ∧
    (transcribeRequest blob).filename = "recording.wav" ∧
    (200 ≤ resp.status ∧ resp.status < 300 →
      (transcribeAudio blob resp).2 = Except.ok resp.transcript) ∧
    (¬(200 ≤ resp.status ∧ resp.status < 300) →
      (transcribeAudio blob resp).2 =
        Except.error "Failed to transcribe audio") := by
  have hb : responseOk resp.status = true ↔
      (200 ≤ resp.status ∧ resp.status < 300) := by
    rw [responseOk]
    simp [Bool.and_eq_true, decide_eq_true_eq]
  refine ⟨rfl, rfl, rfl, rfl, rfl, ?_, ?_⟩
  · intro h
    show (if responseOk resp.status then Except.ok resp.transcript
      else Except.error "Failed to transcribe audio") = _
    rw [if_pos (hb.mpr h)]
  · intro h
    show (if responseOk resp.status then Except.ok resp.transcript
      else Except.error "Failed to transcribe audio") = _
    rw [if_neg (fun hc => h (hb.mp hc))]

/-- Witness for `transcribeAudio_contract` at a concrete 2xx exchange. -/
theorem transcribeAudio_contract_witness :
    (200 ≤ 204 ∧ 204 < 300) ∧
    (transcribeAudio [1, 2, 3] ⟨204, "namaste"⟩).2 = Except.ok "namaste" :=
  ⟨by decide,
    (transcribeAudio_contract [1, 2, 3] ⟨204, "namaste"⟩).2.2.2.2.2.1 (by decide)⟩

/-- Claim C9: a data-available event with payload size 0 is discarded
and leaves the state unchanged; appending any event preserves the
invariant that every recorded chunk has positive size; and each
successful `startRecording` begins from the empty chunk sequence — so
the concatenated blob contains only chunks of positive size. -/
theorem ondataavailable_positive_chunks (s : PanelState) (size : ℕ) :
    ondataavailable s 0 = s ∧
    ((∀ c ∈ s.chunks, 0 < c) →
      ∀ c ∈ (ondataavailable s size).chunks, 0 < c) ∧
    (startRecording s true).chunks = [] := by
  refine ⟨rfl, ?_, by rw [startRecording, if_pos rfl]⟩
  intro h c hc
  rw [ondataavailable] at hc
  by_cases hs : size > 0
  · rw [if_pos hs] at hc
    rcases List.mem_append.mp hc with h1 | h2
    · exact h c h1
    · rw [List.mem_singleton] at h2
      omega
  · rw [if_neg hs] at hc
    exact h c hc

/-- Witness for `ondataavailable_positive_chunks` at the concrete state
`recordingState` and a 7-byte chunk. -/
theorem ondataavailable_positive_chunks_witness :
    ondataavailable recordingState 0 = recordingState ∧
    (∀ c ∈ (ondataavailable recordingState 7).chunks, 0 < c) :=
  ⟨(ondataavailable_positive_chunks recordingState 0).1,
    (ondataavailable_positive_chunks recordingState 7).2.1 (by decide)⟩

/-- Claim C10: `stopRecording` is safe to call at any time — with no
recorder, or with a recorder in the `inactive` state, it changes
nothing and invokes no stop; it invokes the `stop()` of the recorder exactly
when a recorder exists whose state is not `inactive`. -/
theorem stopRecording_safe (s : PanelState) :
    (s.recorder = none → stopRecording s = (s, false)) ∧
    (s.recorder = some RecorderState.inactive →
      stopRecording s = (s, false)) ∧
    (∀ st, s.recorder = some st → st ≠ RecorderState.inactive →
      stopRecording s = ({ s with recorder := some RecorderState.inactive }, true)) := by
  refine ⟨?_, ?_, ?_⟩
  · intro h
    simp [stopRecording, h]
  · intro h
    simp [stopRecording, h]
  · intro st h hne
    simp [stopRecording, h, hne]

/-- Witness for `stopRecording_safe` at three concrete states: no
recorder ever created, a finished (inactive) recorder, and an active
recorder. -/
theorem stopRecording_safe_witness :
    stopRecording idleState = (idleState, false) ∧
    stopRecording finishedState = (finishedState, false) ∧
    stopRecording recordingState =
      ({ recordingState with recorder := some RecorderState.inactive }, true) :=
  ⟨(stopRecording_safe idleState).1 rfl,
    (stopRecording_safe finishedState).2.1 rfl,
    (stopRecording_safe recordingState).2.2 RecorderState.recording rfl
      (by decide)⟩
